import Mathlib

/-!
Verification of the pipecat_plivo telephony bridge (src/backend/app.py,
src/backend/bot.py, src/backend/make_call.py) against its natural-language
specification.  The Python code is shallowly embedded: Python/JSON values
become an inductive `Json` type, environment access becomes functions over
`Env`, request handlers become pure functions from their external inputs
(parsed messages, provider-call outcomes) to structured outcomes recording
the response, any bridge invocation, and whether an exception escaped.
-/

/-- Model of a Python value as produced by `json.loads` (and of the JSON
bodies exchanged with the server): null, string, integer, boolean, list,
dict (association list, first binding wins on lookup). -/
inductive Json where
  | null : Json
  | str (s : String) : Json
  | int (n : Int) : Json
  | bool (b : Bool) : Json
  | arr (xs : List Json) : Json
  | obj (fields : List (String × Json)) : Json

namespace Json

/-- Python subscript `d[k]`: succeeds only on a dict that has the key;
a missing key raises KeyError and subscripting a non-dict raises TypeError
(both are `Exception`s, modelled as `.error`). -/
def getItem : Json → String → Except String Json
  | .obj fields, k =>
      match fields.lookup k with
      | some v => .ok v
      | none => .error ("KeyError: " ++ k)
  | _, _ => .error "TypeError: value is not subscriptable"

/-- Python `dict.get(k)`: the value at `k`, or None when absent; raises
AttributeError on a non-dict receiver. -/
def get : Json → String → Except String Json
  | .obj fields, k =>
      match fields.lookup k with
      | some v => .ok v
      | none => .ok .null
  | _, _ => .error "AttributeError: object has no attribute get"

/-- Python truthiness of a value. -/
def truthy : Json → Bool
  | .null => false
  | .str s => !s.isEmpty
  | .int n => n != 0
  | .bool b => b
  | .arr xs => !xs.isEmpty
  | .obj fields => !fields.isEmpty

/-- Python `str()` of a value, as used in f-strings (only the cases the
code can reach). -/
def pyStr : Json → String
  | .null => "None"
  | .str s => s
  | .int n => toString n
  | .bool b => if b then "True" else "False"
  | .arr _ => "<list>"
  | .obj _ => "<dict>"

end Json

/-- Python `==` between a value and a string literal: true exactly when
the value is that string (cross-type comparison is False, not an error). -/
def pyEqStr : Json → String → Bool
  | .str s, t => s = t
  | _, _ => false

/-! ## app.py: startup configuration (lines 17-30)

The module reads five environment values and builds `plivo_client` only
when `all([...])` of them are truthy.  `os.getenv` returns the variable's
string value, or the default (None when omitted).  Note the defaults for
the two numbers are the Python integers `+918035737766` / `+919671454088`
(unary plus on an int literal), and `PLIVO_ANSWER_XML` falls back to the
f-string `f"{NGROK_URL}/webhook"`. -/

/-- An environment: a partial map from variable names to their string
values (`none` = variable unset). -/
def Env : Type := String → Option String

/-- Model of `os.getenv(k)`: the value as a Python string, or None. -/
def getenv (e : Env) (k : String) : Json :=
  match e k with
  | some v => .str v
  | none => .null

/-- Model of `os.getenv(k, default)`. -/
def getenvD (e : Env) (k : String) (d : Json) : Json :=
  match e k with
  | some v => .str v
  | none => d

/-- Line 19: `PLIVO_FROM_NUMBER = os.getenv("PLIVO_FROM_NUMBER", +918035737766)`. -/
def PLIVO_FROM_NUMBER (e : Env) : Json :=
  getenvD e "PLIVO_FROM_NUMBER" (.int 918035737766)

/-- Line 20: `PLIVO_TO_NUMBER = os.getenv("PLIVO_TO_NUMBER", +919671454088)`. -/
def PLIVO_TO_NUMBER (e : Env) : Json :=
  getenvD e "PLIVO_TO_NUMBER" (.int 919671454088)

/-- Line 22: `PLIVO_ANSWER_XML = os.getenv("PLIVO_ANSWER_XML") or f"{NGROK_URL}/webhook"`. -/
def PLIVO_ANSWER_XML (e : Env) : Json :=
  if (getenv e "PLIVO_ANSWER_XML").truthy then getenv e "PLIVO_ANSWER_XML"
  else .str ((getenv e "NGROK_URL").pyStr ++ "/webhook")

/-- The startup check `all([PLIVO_AUTH_ID, PLIVO_AUTH_TOKEN,
PLIVO_FROM_NUMBER, PLIVO_TO_NUMBER, PLIVO_ANSWER_XML])`; `plivo_client`
is constructed exactly when this is true. -/
def plivo_client_configured (e : Env) : Bool :=
  (getenv e "PLIVO_AUTH_ID").truthy &&
  (getenv e "PLIVO_AUTH_TOKEN").truthy &&
  (PLIVO_FROM_NUMBER e).truthy &&
  (PLIVO_TO_NUMBER e).truthy &&
  (PLIVO_ANSWER_XML e).truthy

/-! ## app.py: POST /start-call (lines 80-98)

The handler reads the global `plivo_client`; when it is None it returns a
structured error without touching the network.  Otherwise it calls
`plivo_client.calls.create(...)` inside a try, reads
`response['request_uuid']`, and returns success; any exception (from the
provider call or from the subscript) is caught and converted to
`{"status": "error", "message": str(e)}`.  The provider call is external,
so its outcome is a parameter: `.error e` models an exception with text
`e`, `.ok r` models a returned response object `r`. -/

/-- Outcome of `POST /start-call`: the JSON body returned, paired with
whether a network call to the provider was issued. -/
def start_plivo_call : Bool → Except String Json → Json × Bool
  | false, _ =>
      (.obj [("status", .str "error"),
             ("message", .str "Plivo client not configured")], false)
  | true, .error e =>
      (.obj [("status", .str "error"), ("message", .str e)], true)
  | true, .ok resp =>
      match resp.getItem "request_uuid" with
      | .ok uuid =>
          (.obj [("status", .str "success"), ("call_uuid", uuid)], true)
      | .error e =>
          (.obj [("status", .str "error"), ("message", .str e)], true)

/-! ## bot.py: run_bot exception structure (lines 65-174)

`run_bot` builds the transport/services/pipeline (lines 67-168, no try
around them: an exception there propagates to the caller) and then runs
the pipeline inside `try: await runner.run(task) except Exception:` so a
run-time pipeline exception is caught and logged inside `run_bot`.  Setup
and run outcomes are external, so they are parameters. -/

/-- Model of `run_bot`: `.error` when an exception escapes it (only possible during
setup), `.ok` when it returns normally (including a caught run error). -/
def run_bot (setupResult : Except String Unit)
    (runResult : Except String Unit) : Except String Unit :=
  match setupResult with
  | .error e => .error e
  | .ok _ =>
      match runResult with
      | .error _ => .ok ()
      | .ok _ => .ok ()

/-! ## app.py: WS /stream (lines 100-118)

After `accept()`, the handler reads one message, takes
`message.get('text', None)`, returns early if it is None, parses the text
with `json.loads` (external: a parameter `loads`), checks
`data['event'] == "start"`, extracts `data['start']['streamId']` and
awaits `run_bot(websocket, stream_id, True)`.  Everything sits in
`try/except Exception/finally`; the handler never sends a message, and
its termination (the `finally` block, after which the framework closes
the socket) is reached on every path. -/

/-- Observable outcome of one `/stream` connection: the stream-id values
passed to `run_bot` (in order), the messages sent back on the socket, the
flag that the `finally` block ran (the point at which the connection is
closed), and whether an exception escaped the handler. -/
structure WsOutcome where
  botCalls : List Json
  sent : List String
  finallyRan : Bool
  raised : Bool

/-- The `/stream` handler.  `msgText` is `message.get('text', None)` of
the one received message; `loads` is `json.loads`; `runBot` gives the
outcome of `run_bot` as a function of the extracted stream id. -/
def websocket_endpoint (msgText : Option String)
    (loads : String → Except String Json)
    (runBot : Json → Except String Unit) : WsOutcome :=
  match msgText with
  | none => { botCalls := [], sent := [], finallyRan := true, raised := false }
  | some text =>
      match loads text with
      | .error _ => { botCalls := [], sent := [], finallyRan := true, raised := false }
      | .ok data =>
          match data.getItem "event" with
          | .error _ => { botCalls := [], sent := [], finallyRan := true, raised := false }
          | .ok ev =>
              if pyEqStr ev "start" then
                match data.getItem "start" with
                | .error _ => { botCalls := [], sent := [], finallyRan := true, raised := false }
                | .ok st =>
                    match st.getItem "streamId" with
                    | .error _ => { botCalls := [], sent := [], finallyRan := true, raised := false }
                    | .ok sid =>
                        match runBot sid with
                        | .error _ =>
                            { botCalls := [sid], sent := [], finallyRan := true, raised := false }
                        | .ok _ =>
                            { botCalls := [sid], sent := [], finallyRan := true, raised := false }
              else { botCalls := [], sent := [], finallyRan := true, raised := false }

/-! ## bot.py: pipeline assembly (lines 65-131)

`run_bot` constructs the transport with fixed `FastAPIWebsocketParams`,
the three services, the context aggregator, the audio buffer, and a
`Pipeline` over a fixed ordered list of stages, then a `PipelineTask`
with fixed `PipelineParams`.  The stage objects are external SDK values;
what this code determines is their order and the configuration literals,
which is what the embedding records. -/

/-- The processing stages `run_bot` can place in the pipeline. -/
inductive Stage where
  | transportInput
  | stt
  | userContextAggregator
  | llm
  | tts
  | transportOutput
  | audioBuffer
  | assistantContextAggregator
deriving DecidableEq, Repr

/-- The ordered stage list passed to `Pipeline([...])` in bot.py
lines 109-120. -/
def run_bot_pipeline : List Stage :=
  [ .transportInput,
    .stt,
    .userContextAggregator,
    .llm,
    .tts,
    .transportOutput,
    .audioBuffer,
    .assistantContextAggregator ]

/-- The `PipelineParams` literals of bot.py lines 124-130. -/
structure PipelineParams where
  audio_in_sample_rate : Nat
  audio_out_sample_rate : Nat
  allow_interruptions : Bool
  enable_metrics : Bool
  disable_buffers : Bool
deriving DecidableEq, Repr

/-- The params `run_bot` passes to `PipelineTask`. -/
def run_bot_params : PipelineParams :=
  { audio_in_sample_rate := 16000,
    audio_out_sample_rate := 16000,
    allow_interruptions := true,
    enable_metrics := true,
    disable_buffers := true }

/-- The `FastAPIWebsocketParams` literals of bot.py lines 69-77 (the VAD
analyzer object and serializer are external; `vadAnalyzerIsSilero` and
`serializerStreamSid` record what the code passes to them). -/
structure FastAPIWebsocketParams where
  audio_in_enabled : Bool
  audio_out_enabled : Bool
  add_wav_header : Bool
  vad_enabled : Bool
  vad_audio_passthrough : Bool
  vadAnalyzerIsSilero : Bool
  serializerStreamSid : String
deriving DecidableEq, Repr

/-- The transport params `run_bot` builds for a given `stream_sid`. -/
def run_bot_transport_params (stream_sid : String) : FastAPIWebsocketParams :=
  { audio_in_enabled := true,
    audio_out_enabled := true,
    add_wav_header := false,
    vad_enabled := true,
    vad_audio_passthrough := true,
    vadAnalyzerIsSilero := true,
    serializerStreamSid := stream_sid }

/-! ## bot.py: save_audio (lines 43-62)

Given audio bytes, `save_audio` does nothing when the buffer is empty;
otherwise it creates the sibling `recordings` directory if absent, builds
a filename from the server name and `datetime.now().strftime('%Y%m%d_%H%M%S')`,
serializes a WAV container in memory with `wave` (sample width 2,
`num_channels` channels, `sample_rate` frame rate, then the frames) and
writes exactly that one file.  The `wave` module's PCM output is the
standard 44-byte RIFF/WAVE header followed by the frames; it is embedded
byte-for-byte so the header claim is about real bytes. -/

/-- Little-endian encoding of `n` in two bytes, as `struct.pack` does
for in-range values. -/
def le2 (n : Nat) : List Nat := [n % 256, n / 256 % 256]

/-- Little-endian encoding of `n` in four bytes. -/
def le4 (n : Nat) : List Nat :=
  [n % 256, n / 256 % 256, n / 65536 % 256, n / 16777216 % 256]

/-- Read `w` little-endian bytes starting at offset `off`. -/
def readLE (bs : List Nat) (off w : Nat) : Nat :=
  ((bs.drop off).take w).foldr (fun b acc => b + 256 * acc) 0

/-- The byte serialization the `wave` module produces for an
uncompressed PCM file with the given channel count, frame rate, sample
width and frame bytes: RIFF chunk, fmt chunk, data chunk. -/
def wavBytes (nchannels framerate sampwidth : Nat) (frames : List Nat) : List Nat :=
  [82, 73, 70, 70] ++                                     -- "RIFF"
  le4 (36 + frames.length) ++                             -- chunk size
  [87, 65, 86, 69] ++                                     -- "WAVE"
  [102, 109, 116, 32] ++                                  -- "fmt "
  le4 16 ++                                               -- fmt chunk size
  le2 1 ++                                                -- PCM format tag
  le2 nchannels ++
  le4 framerate ++
  le4 (framerate * nchannels * sampwidth) ++              -- byte rate
  le2 (nchannels * sampwidth) ++                          -- block align
  le2 (sampwidth * 8) ++                                  -- bits per sample
  [100, 97, 116, 97] ++                                   -- "data"
  le4 frames.length ++
  frames

/-- A wall-clock instant as `datetime.now()` sees it; `microsecond` is
below the resolution of the `%Y%m%d_%H%M%S` format. -/
structure Timestamp where
  year : Nat
  month : Nat
  day : Nat
  hour : Nat
  minute : Nat
  second : Nat
  microsecond : Nat
deriving DecidableEq, Repr

/-- Zero-padding to two digits, as strftime does for %m %d %H %M %S. -/
def pad2 (n : Nat) : String :=
  if n < 10 then "0" ++ toString n else toString n

/-- Zero-padding to four digits, as strftime does for %Y. -/
def pad4 (n : Nat) : String :=
  if n < 10 then "000" ++ toString n
  else if n < 100 then "00" ++ toString n
  else if n < 1000 then "0" ++ toString n
  else toString n

/-- Format `datetime.now().strftime('%Y%m%d_%H%M%S')`. -/
def strftime_YmdHMS (t : Timestamp) : String :=
  pad4 t.year ++ pad2 t.month ++ pad2 t.day ++ "_" ++
  pad2 t.hour ++ pad2 t.minute ++ pad2 t.second

/-- A file `save_audio` writes: its directory, its name, and its bytes. -/
structure SavedFile where
  dir : String
  name : String
  bytes : List Nat
deriving DecidableEq, Repr

/-- Model of `save_audio(server_name, audio, sample_rate, num_channels)` at
instant `now`: `none` when no file is created, otherwise the single file
written.  Directory creation (`mkdir(exist_ok=True)`) and the actual disk
write are external effects; the function returns what is written where. -/
def save_audio (server_name : String) (audio : List Nat)
    (sample_rate num_channels : Nat) (now : Timestamp) : Option SavedFile :=
  if audio.length > 0 then
    some
      { dir := "recordings",
        name := server_name ++ "_recording_" ++ strftime_YmdHMS now ++ ".wav",
        bytes := wavBytes num_channels sample_rate 2 audio }
  else none

/-! ## app.py: routing table and make_call.py (lines 11-56)

The FastAPI app registers exactly four routes (app.py lines 46, 60, 80,
100); dispatch on an unregistered path is the framework's 404.  The CLI
`make_call` POSTs to `f"{server_url}/call/{phone_number}"`, calls
`raise_for_status()` (raises for status >= 400), returns `response.json()`
on success and None on any `RequestException`; `main` prints
`result.get('call_sid')` and exits 0 when the result is truthy, else
prints a failure line and exits 1 via `sys.exit(1)`. -/

/-- HTTP-ish method of a registered route. -/
inductive Method where
  | GET
  | POST
  | WS
deriving DecidableEq, Repr

/-- A registered route: method and fixed path (no path parameters exist
in this app). -/
structure Route where
  method : Method
  path : String
deriving DecidableEq, Repr

/-- The four routes app.py defines. -/
def appRoutes : List Route :=
  [ { method := .GET, path := "/" },
    { method := .POST, path := "/webhook" },
    { method := .POST, path := "/start-call" },
    { method := .WS, path := "/stream" } ]

/-- Whether a request matches some registered route. -/
def matchesRoute (m : Method) (p : String) : Bool :=
  appRoutes.any fun r => r.method == m && r.path == p

/-- Status code of dispatching a request against the app: a handler
answers 200, an unregistered path gets the framework 404. -/
def dispatchStatus (m : Method) (p : String) : Nat :=
  if matchesRoute m p then 200 else 404

/-- The path the CLI targets for a phone number (make_call.py line 30,
after `rstrip("/")` on the server URL). -/
def make_call_path (phone_number : String) : String :=
  "/call/" ++ phone_number

/-- Outcome of the one HTTP request `make_call` issues: a transport-level
exception with its message, or a response with status, raw text and
parsed JSON body. -/
inductive ReqOutcome where
  | exn (msg : String)
  | resp (status : Nat) (text : String) (body : Json)

/-- Model of `make_call`: the value returned (None on failure) and the lines it
prints.  `raise_for_status()` raises an `HTTPError` (a
`RequestException` whose `response` is attached) when the status is 400
or above; the except block prints the error and, when a response is
attached, its text. -/
def make_call : ReqOutcome → Option Json × List String
  | .exn m => (none, ["Error making call: " ++ m])
  | .resp status text body =>
      if 400 ≤ status then
        (none,
         ["Error making call: " ++ toString status ++ " Error for url",
          "Response: " ++ text])
      else (some body, [])

/-- Observable outcome of one `make_call.py` run: lines printed, process
exit status, number of HTTP requests issued, and whether an uncaught
exception crashed the interpreter (which also exits 1, with a traceback
instead of the failure line). -/
structure CliOutcome where
  printed : List String
  exitCode : Nat
  requests : Nat
  crashed : Bool
deriving DecidableEq, Repr

/-- The tail of `main()` after `result = make_call(...)`: `if result:`
(Python truthiness: None and falsy bodies fail) prints the call_sid line
and exits 0, else prints the failure line and exits 1; `result.get` on a
non-dict body is an uncaught AttributeError (interpreter exit 1 with a
traceback, `crashed`). -/
def main_step : Option Json × List String → CliOutcome
  | (some body, out) =>
      if body.truthy then
        match body.get "call_sid" with
        | .ok sid =>
            { printed := out ++ ["Call initiated successfully! Call SID: " ++ sid.pyStr],
              exitCode := 0, requests := 1, crashed := false }
        | .error _ =>
            { printed := out, exitCode := 1, requests := 1, crashed := true }
      else
        { printed := out ++ ["Failed to initiate call."],
          exitCode := 1, requests := 1, crashed := false }
  | (none, out) =>
      { printed := out ++ ["Failed to initiate call."],
        exitCode := 1, requests := 1, crashed := false }

/-- Full `main()` of make_call.py given the outcome of its single request. -/
def make_call_main (o : ReqOutcome) : CliOutcome :=
  main_step (make_call o)

/-! ## Theorems -/

/-- Claim C1: for every initial WebSocket message on /stream whose JSON
has event equal to "start", the stream identifier passed to the bridge
(run_bot) is exactly the value at the nested path start.streamId of that
message, unchanged. -/
theorem C1_streamId_passed_unchanged (text : String)
    (loads : String → Except String Json)
    (runBot : Json → Except String Unit)
    (data st sid : Json)
    (hload : loads text = .ok data)
    (hev : data.getItem "event" = .ok (.str "start"))
    (hst : data.getItem "start" = .ok st)
    (hsid : st.getItem "streamId" = .ok sid) :
    (websocket_endpoint (some text) loads runBot).botCalls = [sid] := by
  simp only [websocket_endpoint, hload, hev, hst, hsid]
  have : pyEqStr (.str "start") "start" = true := rfl
  rw [this]
  simp only [if_true]
  cases runBot sid <;> rfl

/-- Witness for C1 at a concrete start message. -/
theorem C1_streamId_passed_unchanged_witness :
    (websocket_endpoint (some "msg")
      (fun _ => .ok (.obj [("event", .str "start"),
                           ("start", .obj [("streamId", .str "stream-7")])]))
      (fun _ => .ok ())).botCalls = [.str "stream-7"] :=
  C1_streamId_passed_unchanged "msg"
    (fun _ => .ok (.obj [("event", .str "start"),
                         ("start", .obj [("streamId", .str "stream-7")])]))
    (fun _ => .ok ())
    (.obj [("event", .str "start"),
           ("start", .obj [("streamId", .str "stream-7")])])
    (.obj [("streamId", .str "stream-7")])
    (.str "stream-7")
    rfl rfl rfl rfl

/-- Claim C2: for every initial WebSocket message on /stream that is
malformed (no text payload, non-JSON text, missing event field) or whose
event is not "start", the handler terminates without invoking run_bot,
closes the connection (its finally block runs), and sends no message. -/
theorem C2_malformed_closes_without_bridge (msgText : Option String)
    (loads : String → Except String Json)
    (runBot : Json → Except String Unit)
    (h : msgText = none ∨
         ∃ text, msgText = some text ∧
           ((∃ err, loads text = .error err) ∨
            ∃ data, loads text = .ok data ∧
              ((∃ err, data.getItem "event" = .error err) ∨
               ∃ ev, data.getItem "event" = .ok ev ∧ pyEqStr ev "start" = false))) :
    websocket_endpoint msgText loads runBot =
      { botCalls := [], sent := [], finallyRan := true, raised := false } := by
  rcases h with h | ⟨text, htext, h⟩
  · subst h; rfl
  · subst htext
    rcases h with ⟨err, herr⟩ | ⟨data, hdata, h⟩
    · simp only [websocket_endpoint, herr]
    · rcases h with ⟨err, herr⟩ | ⟨ev, hev, hne⟩
      · simp only [websocket_endpoint, hdata, herr]
      · simp only [websocket_endpoint, hdata, hev, hne, if_false, Bool.false_eq_true]

/-- Witness for C2: a message whose event is "stop". -/
theorem C2_malformed_closes_without_bridge_witness :
    websocket_endpoint (some "msg")
      (fun _ => .ok (.obj [("event", .str "stop")]))
      (fun _ => .ok ()) =
      { botCalls := [], sent := [], finallyRan := true, raised := false } :=
  C2_malformed_closes_without_bridge (some "msg")
    (fun _ => .ok (.obj [("event", .str "stop")]))
    (fun _ => .ok ())
    (Or.inr ⟨"msg", rfl,
      Or.inr ⟨.obj [("event", .str "stop")], rfl,
        Or.inr ⟨.str "stop", rfl, rfl⟩⟩⟩)

/-- Claim C6: every exception during pipeline setup or run is caught
(setup exceptions propagate out of run_bot but are caught by the /stream
handler; run exceptions are caught inside run_bot), no exception escapes
the /stream handler, and on every path the handler reaches its finally
block - the point at which the connection is closed. -/
theorem C6_exceptions_caught_always_closed (msgText : Option String)
    (loads : String → Except String Json)
    (setupResult runResult : Except String Unit) :
    (websocket_endpoint msgText loads
        (fun _ => run_bot setupResult runResult)).raised = false ∧
    (websocket_endpoint msgText loads
        (fun _ => run_bot setupResult runResult)).finallyRan = true := by
  refine ⟨?_, ?_⟩ <;>
    (unfold websocket_endpoint; repeat' split) <;> rfl

/-- A non-empty Python string is truthy. -/
theorem truthy_str_of_ne (v : String) (hne : v ≠ "") :
    (Json.str v).truthy = true := by
  show (!v.isEmpty) = true
  cases hb : v.isEmpty with
  | false => rfl
  | true => exact absurd ((String.isEmpty_iff v).mp hb) hne

/-- Appending "/webhook" never yields the empty string. -/
theorem append_webhook_ne_empty (s : String) : s ++ "/webhook" ≠ "" := by
  intro h
  have hlen := congrArg String.length h
  rw [String.length_append] at hlen
  have h8 : ("/webhook" : String).length = 8 := rfl
  have h0 : ("" : String).length = 0 := rfl
  rw [h8, h0] at hlen
  omega

/-- Claim C3: POST /start-call never raises: it always returns a JSON
object with a status field; with the client unconfigured it returns the
structured "not configured" error and issues no provider call; when the
provider call raises, the exception text comes back as the message of a
structured error. -/
theorem C3_start_call_never_raises (clientConfigured : Bool)
    (callResult : Except String Json) :
    (∃ fields, (start_plivo_call clientConfigured callResult).1 = .obj fields ∧
       (fields.lookup "status" = some (.str "success") ∨
        fields.lookup "status" = some (.str "error"))) ∧
    (clientConfigured = false →
       start_plivo_call clientConfigured callResult =
         (.obj [("status", .str "error"),
                ("message", .str "Plivo client not configured")], false)) ∧
    (∀ e, clientConfigured = true → callResult = .error e →
       start_plivo_call clientConfigured callResult =
         (.obj [("status", .str "error"), ("message", .str e)], true)) := by
  refine ⟨?_, ?_, ?_⟩
  · cases clientConfigured with
    | false =>
        exact ⟨[("status", .str "error"),
                ("message", .str "Plivo client not configured")],
               rfl, Or.inr rfl⟩
    | true =>
        cases callResult with
        | error e =>
            exact ⟨[("status", .str "error"), ("message", .str e)],
                   rfl, Or.inr rfl⟩
        | ok resp =>
            cases h : resp.getItem "request_uuid" with
            | ok uuid =>
                refine ⟨[("status", .str "success"), ("call_uuid", uuid)],
                        ?_, Or.inl rfl⟩
                simp only [start_plivo_call, h]
            | error e =>
                refine ⟨[("status", .str "error"), ("message", .str e)],
                        ?_, Or.inr rfl⟩
                simp only [start_plivo_call, h]
  · intro h; subst h; rfl
  · intro e hc hr; subst hc; subst hr; rfl

/-- Witness for C3: unconfigured client, and a configured client whose
provider call raises "boom". -/
theorem C3_start_call_never_raises_witness :
    start_plivo_call false (.ok .null) =
      (.obj [("status", .str "error"),
             ("message", .str "Plivo client not configured")], false) ∧
    start_plivo_call true (.error "boom") =
      (.obj [("status", .str "error"), ("message", .str "boom")], true) :=
  ⟨(C3_start_call_never_raises false (.ok .null)).2.1 rfl,
   (C3_start_call_never_raises true (.error "boom")).2.2 "boom" rfl rfl⟩

/-- Claim C4: when the provider call succeeds with a response carrying a
request_uuid, /start-call answers exactly with status "success" and
call_uuid equal to that request_uuid. -/
theorem C4_success_returns_request_uuid (resp uuid : Json)
    (h : resp.getItem "request_uuid" = .ok uuid) :
    start_plivo_call true (.ok resp) =
      (.obj [("status", .str "success"), ("call_uuid", uuid)], true) := by
  simp only [start_plivo_call, h]

/-- Witness for C4 at the spec's end-to-end example: a stubbed provider
response carrying request_uuid "abc-123". -/
theorem C4_success_returns_request_uuid_witness :
    start_plivo_call true (.ok (.obj [("request_uuid", .str "abc-123")])) =
      (.obj [("status", .str "success"), ("call_uuid", .str "abc-123")], true) :=
  C4_success_returns_request_uuid
    (.obj [("request_uuid", .str "abc-123")]) (.str "abc-123") rfl

/-- Claim C10: over environments whose set variables are non-empty
strings, the startup check disables the call initiator exactly when
PLIVO_AUTH_ID or PLIVO_AUTH_TOKEN is unset: the number variables fall
back to non-empty integer defaults and the answer-URL expression is a
non-empty string even with NGROK_URL unset, so unset number or URL
variables never yield the "not configured" state. -/
theorem C10_only_auth_vars_can_disable (e : Env)
    (hwf : ∀ k v, e k = some v → v ≠ "") :
    plivo_client_configured e = false ↔
      (e "PLIVO_AUTH_ID" = none ∨ e "PLIVO_AUTH_TOKEN" = none) := by
  have hstr : ∀ k v, e k = some v → (getenv e k).truthy = true := by
    intro k v hekv
    have hg : getenv e k = .str v := by unfold getenv; rw [hekv]
    rw [hg]
    exact truthy_str_of_ne v (hwf k v hekv)
  have hfrom : (PLIVO_FROM_NUMBER e).truthy = true := by
    unfold PLIVO_FROM_NUMBER getenvD
    cases hk : e "PLIVO_FROM_NUMBER" with
    | none => rfl
    | some v => exact truthy_str_of_ne v (hwf _ v hk)
  have hto : (PLIVO_TO_NUMBER e).truthy = true := by
    unfold PLIVO_TO_NUMBER getenvD
    cases hk : e "PLIVO_TO_NUMBER" with
    | none => rfl
    | some v => exact truthy_str_of_ne v (hwf _ v hk)
  have hxml : (PLIVO_ANSWER_XML e).truthy = true := by
    unfold PLIVO_ANSWER_XML
    cases hx : (getenv e "PLIVO_ANSWER_XML").truthy with
    | true => exact hx
    | false => exact truthy_str_of_ne _ (append_webhook_ne_empty _)
  have hauth : ∀ k, (getenv e k).truthy = false ↔ e k = none := by
    intro k
    cases hk : e k with
    | none =>
        have hg : getenv e k = .null := by unfold getenv; rw [hk]
        simp [hg, Json.truthy]
    | some v =>
        simp only [reduceCtorEq, iff_false]
        rw [Bool.not_eq_false]
        exact hstr k v hk
  constructor
  · intro h
    by_contra hboth
    push_neg at hboth
    obtain ⟨h1, h2⟩ := hboth
    have t1 : (getenv e "PLIVO_AUTH_ID").truthy = true := by
      rcases hk : e "PLIVO_AUTH_ID" with _ | v
      · exact absurd hk h1
      · exact hstr _ v hk
    have t2 : (getenv e "PLIVO_AUTH_TOKEN").truthy = true := by
      rcases hk : e "PLIVO_AUTH_TOKEN" with _ | v
      · exact absurd hk h2
      · exact hstr _ v hk
    rw [plivo_client_configured, t1, t2, hfrom, hto, hxml] at h
    simp at h
  · intro h
    rcases h with h | h
    · have hf : (getenv e "PLIVO_AUTH_ID").truthy = false := (hauth _).mpr h
      simp [plivo_client_configured, hf]
    · have hf : (getenv e "PLIVO_AUTH_TOKEN").truthy = false := (hauth _).mpr h
      simp [plivo_client_configured, hf]

/-- Witness for C10: only the auth token is set; the client is not
configured exactly because PLIVO_AUTH_ID is unset. -/
theorem C10_only_auth_vars_can_disable_witness :
    (plivo_client_configured
        (fun k => if k = "PLIVO_AUTH_TOKEN" then some "tok" else none) = false ↔
      ((fun k => if k = "PLIVO_AUTH_TOKEN" then some "tok" else none :
          Env) "PLIVO_AUTH_ID" = none ∨
       (fun k => if k = "PLIVO_AUTH_TOKEN" then some "tok" else none :
          Env) "PLIVO_AUTH_TOKEN" = none)) :=
  C10_only_auth_vars_can_disable
    (fun k => if k = "PLIVO_AUTH_TOKEN" then some "tok" else none)
    (by
      intro k v h
      simp only [] at h
      split at h
      · injection h with hv
        rw [← hv]
        decide
      · exact Option.noConfusion h)

set_option maxHeartbeats 1600000

/-- Claim C5: save_audio is a no-op on empty audio; on non-empty audio it
creates exactly one file under the recordings directory named
server_name_recording_YYYYMMDD_HHMMSS.wav (second resolution: the name
ignores microseconds), whose WAV header bytes encode 16-bit samples
(sample width 2), the given channel count at byte offset 22, and the
given frame rate at byte offset 24. -/
theorem C5_save_audio_single_wav (server_name : String) (audio : List Nat)
    (sample_rate num_channels : Nat) (now : Timestamp)
    (hC : num_channels < 65536) (hR : sample_rate < 4294967296) :
    (audio = [] →
       save_audio server_name audio sample_rate num_channels now = none) ∧
    (audio ≠ [] →
       save_audio server_name audio sample_rate num_channels now = some
         { dir := "recordings",
           name := server_name ++ "_recording_" ++ strftime_YmdHMS now ++ ".wav",
           bytes := wavBytes num_channels sample_rate 2 audio }) ∧
    readLE (wavBytes num_channels sample_rate 2 audio) 22 2 = num_channels ∧
    readLE (wavBytes num_channels sample_rate 2 audio) 24 4 = sample_rate ∧
    readLE (wavBytes num_channels sample_rate 2 audio) 34 2 = 16 ∧
    (∀ micro,
       save_audio server_name audio sample_rate num_channels
         { now with microsecond := micro } =
       save_audio server_name audio sample_rate num_channels now) := by
  refine ⟨?_, ?_, ?_, ?_, ?_, fun micro => rfl⟩
  · intro h; subst h; rfl
  · intro h
    unfold save_audio
    rw [if_pos (List.length_pos.mpr h)]
  · have h : readLE (wavBytes num_channels sample_rate 2 audio) 22 2 =
        num_channels % 256 + 256 * (num_channels / 256 % 256 + 256 * 0) := rfl
    omega
  · have h : readLE (wavBytes num_channels sample_rate 2 audio) 24 4 =
        sample_rate % 256 + 256 * (sample_rate / 256 % 256 +
          256 * (sample_rate / 65536 % 256 +
            256 * (sample_rate / 16777216 % 256 + 256 * 0))) := rfl
    omega
  · rfl

/-- Witness for C5: empty audio saves nothing; two bytes at 8 kHz mono
produce the single expected file and header fields. -/
theorem C5_save_audio_single_wav_witness :
    save_audio "srv" [] 8000 1 ⟨2025, 10, 12, 9, 30, 0, 0⟩ = none ∧
    save_audio "srv" [7, 8] 8000 1 ⟨2025, 10, 12, 9, 30, 0, 0⟩ = some
      { dir := "recordings",
        name := "srv" ++ "_recording_" ++
          strftime_YmdHMS ⟨2025, 10, 12, 9, 30, 0, 0⟩ ++ ".wav",
        bytes := wavBytes 1 8000 2 [7, 8] } ∧
    readLE (wavBytes 1 8000 2 [7, 8]) 22 2 = 1 ∧
    readLE (wavBytes 1 8000 2 [7, 8]) 24 4 = 8000 ∧
    readLE (wavBytes 1 8000 2 [7, 8]) 34 2 = 16 := by
  have h0 := C5_save_audio_single_wav "srv" [] 8000 1
    ⟨2025, 10, 12, 9, 30, 0, 0⟩ (by decide) (by decide)
  have h := C5_save_audio_single_wav "srv" [7, 8] 8000 1
    ⟨2025, 10, 12, 9, 30, 0, 0⟩ (by decide) (by decide)
  exact ⟨h0.1 rfl, h.2.1 (by decide), h.2.2.1, h.2.2.2.1, h.2.2.2.2.1⟩

/-- Counterexample to claim C7 as stated: a request that succeeds over
HTTP (status 200, below the 400 raise_for_status threshold) but whose
JSON body is the empty object makes make_call.py exit with status 1, not
0 - `if result:` treats the falsy body as failure. -/
theorem C7_counterexample_http_success_exits_1 :
    (200 < 400) ∧ (make_call_main (.resp 200 "" (.obj []))).exitCode = 1 :=
  ⟨by decide, rfl⟩

/-- Claim C7 amended: the CLI issues exactly one request; a connection
error or a status of 400 or above prints an error and exits 1; a
response below 400 with a truthy JSON-object body prints the value at
key call_sid and exits 0; a response below 400 with a falsy body prints
the failure line and exits 1. -/
theorem C7_amended_cli_exit_codes (o : ReqOutcome) :
    (make_call_main o).requests = 1 ∧
    (∀ m, o = .exn m →
       (make_call_main o).exitCode = 1 ∧
       (make_call_main o).printed =
         ["Error making call: " ++ m, "Failed to initiate call."]) ∧
    (∀ s t b, o = .resp s t b → 400 ≤ s →
       (make_call_main o).exitCode = 1 ∧
       (make_call_main o).printed =
         ["Error making call: " ++ toString s ++ " Error for url",
          "Response: " ++ t, "Failed to initiate call."]) ∧
    (∀ s t fields, o = .resp s t (.obj fields) → s < 400 →
       (Json.obj fields).truthy = true →
       (make_call_main o).exitCode = 0 ∧
       ∃ sid, (Json.obj fields).get "call_sid" = .ok sid ∧
         (make_call_main o).printed =
           ["Call initiated successfully! Call SID: " ++ sid.pyStr]) ∧
    (∀ s t b, o = .resp s t b → s < 400 → b.truthy = false →
       (make_call_main o).exitCode = 1 ∧
       (make_call_main o).printed = ["Failed to initiate call."]) := by
  refine ⟨?_, ?_, ?_, ?_, ?_⟩
  · cases o with
    | exn m => rfl
    | resp s t b =>
        unfold make_call_main
        simp only [make_call]
        split
        · rfl
        · simp only [main_step]
          split
          · split <;> rfl
          · rfl
  · intro m h; subst h; exact ⟨rfl, rfl⟩
  · intro s t b h hle; subst h
    have hmc : make_call (.resp s t b) =
        (none, ["Error making call: " ++ toString s ++ " Error for url",
                "Response: " ++ t]) := by
      simp only [make_call]
      rw [if_pos hle]
    unfold make_call_main
    rw [hmc]
    exact ⟨rfl, rfl⟩
  · intro s t fields h hlt htr; subst h
    have hget : ∃ sid, (Json.obj fields).get "call_sid" = .ok sid := by
      cases hl : fields.lookup "call_sid" with
      | none => exact ⟨.null, by simp only [Json.get, hl]⟩
      | some v => exact ⟨v, by simp only [Json.get, hl]⟩
    obtain ⟨sid, hsid⟩ := hget
    have hmc : make_call (.resp s t (.obj fields)) = (some (.obj fields), []) := by
      simp only [make_call]
      rw [if_neg (show ¬400 ≤ s by omega)]
    unfold make_call_main
    rw [hmc]
    simp only [main_step]
    rw [if_pos htr, hsid]
    exact ⟨rfl, sid, rfl, rfl⟩
  · intro s t b h hlt hft; subst h
    have hmc : make_call (.resp s t b) = (some b, []) := by
      simp only [make_call]
      rw [if_neg (show ¬400 ≤ s by omega)]
    unfold make_call_main
    rw [hmc]
    simp only [main_step]
    rw [if_neg (by rw [hft]; exact Bool.false_ne_true)]
    exact ⟨rfl, rfl⟩

/-- Witness for amended C7: a truthy body with a call_sid exits 0; a
connection error exits 1. -/
theorem C7_amended_cli_exit_codes_witness :
    (make_call_main
      (.resp 200 "ok" (.obj [("call_sid", .str "abc-123")]))).exitCode = 0 ∧
    (make_call_main (.exn "connection refused")).exitCode = 1 := by
  have h := C7_amended_cli_exit_codes
    (.resp 200 "ok" (.obj [("call_sid", .str "abc-123")]))
  have h2 := C7_amended_cli_exit_codes (.exn "connection refused")
  exact ⟨(h.2.2.2.1 200 "ok" [("call_sid", .str "abc-123")] rfl (by decide)
            (by decide)).1,
         (h2.2.1 "connection refused" rfl).1⟩

/-- Claim C8: run_bot assembles the fixed ordered chain transport input,
speech-to-text, user context aggregator, LLM, text-to-speech, transport
output, audio buffer, assistant context aggregator, with 16000 Hz audio
in and out, interruptions allowed, metrics enabled, and the VAD enabled
(Silero analyzer) on the transport. -/
theorem C8_pipeline_assembly (stream_sid : String) :
    run_bot_pipeline =
      [Stage.transportInput, Stage.stt, Stage.userContextAggregator,
       Stage.llm, Stage.tts, Stage.transportOutput, Stage.audioBuffer,
       Stage.assistantContextAggregator] ∧
    run_bot_params.audio_in_sample_rate = 16000 ∧
    run_bot_params.audio_out_sample_rate = 16000 ∧
    run_bot_params.allow_interruptions = true ∧
    run_bot_params.enable_metrics = true ∧
    (run_bot_transport_params stream_sid).vad_enabled = true ∧
    (run_bot_transport_params stream_sid).vadAnalyzerIsSilero = true ∧
    (run_bot_transport_params stream_sid).serializerStreamSid = stream_sid :=
  ⟨rfl, rfl, rfl, rfl, rfl, rfl, rfl, rfl⟩

/-- Claim C9: the path the CLI posts to matches no route the server
defines, so dispatch answers 404 - never a 2xx - for every phone
number. -/
theorem C9_cli_route_never_matches (phone_number : String) :
    matchesRoute .POST (make_call_path phone_number) = false ∧
    dispatchStatus .POST (make_call_path phone_number) = 404 ∧
    ¬(200 ≤ dispatchStatus .POST (make_call_path phone_number) ∧
      dispatchStatus .POST (make_call_path phone_number) < 300) := by
  have hm : matchesRoute .POST (make_call_path phone_number) = false := by
    simp [matchesRoute, appRoutes, make_call_path, List.any]
    constructor
    · intro h
      have h2 := congrArg String.data h
      simp [String.data_append] at h2
    · intro h
      have h2 := congrArg String.data h
      simp [String.data_append] at h2
  have hd : dispatchStatus .POST (make_call_path phone_number) = 404 := by
    unfold dispatchStatus
    rw [hm]
    rfl
  refine ⟨hm, hd, ?_⟩
  rw [hd]
  omega
